import Mathlib

/-!
Shallow embedding of the blog-generator backend (`main.py`, `schemas.py`).

Python strings are Lean `String`s (lists of characters under the hood);
`str.strip` and `str.lower` are embedded as `pyStrip` and `pyLower`,
`"sep".join(xs)` as `joinStr sep xs`.  The document store (`database.py`,
not part of the sources) is modelled from the spec where a claim needs it.
-/

/-- Embedding of Python `str.strip()`: drop whitespace from both ends. -/
def pyStrip (s : String) : String :=
  ⟨(((s.data.dropWhile Char.isWhitespace).reverse.dropWhile Char.isWhitespace).reverse)⟩

/-- Embedding of Python `str.lower()` (ASCII case folding). -/
def pyLower (s : String) : String :=
  ⟨s.data.map Char.toLower⟩

/-- Embedding of Python `sep.join(xs)`. -/
def joinStr (sep : String) : List String → String
  | [] => ""
  | [s] => s
  | s :: rest => s ++ sep ++ joinStr sep rest

/-- The fixed base outline (`base` in `generate_outline`, main.py lines 78-85). -/
def outlineBase (topic : String) : List String :=
  ["Introduction",
   "Why " ++ topic ++ " Matters",
   "Key Principles of " ++ topic,
   "Practical Tips for " ++ topic,
   "Common Mistakes to Avoid",
   "Conclusion"]

/-- Embedding of `generate_outline` (main.py lines 77-90). -/
def generate_outline (topic length : String) : List String :=
  if length = "short" then (outlineBase topic).take 4
  else if length = "long" then
    outlineBase topic ++ ["Case Study: " ++ topic ++ " in Action", "Resources & Next Steps"]
  else outlineBase topic

/-- Embedding of `generate_title` (main.py lines 93-100); the dict `.get` with default is an if-chain. -/
def generate_title (topic tone : String) : String :=
  (if tone = "Professional" then "A Practical Guide to"
   else if tone = "Friendly" then "Getting Started with"
   else if tone = "Technical" then "In-Depth Look at"
   else if tone = "Persuasive" then "Why You Should Care About"
   else "A Practical Guide to") ++ " " ++ topic

/-- Embedding of `generate_paragraph` (main.py lines 103-116).  Python truthiness of the
optional `audience` string makes `Some ""` behave like `None`. -/
def generate_paragraph (heading topic tone : String) (audience : Option String)
    (keywords : List String) : String :=
  let style :=
    if tone = "Professional" then "Clear and concise"
    else if tone = "Friendly" then "Conversational and approachable"
    else if tone = "Technical" then "Detailed and precise"
    else if tone = "Persuasive" then "Benefit-oriented and motivating"
    else "Clear and concise"
  let kw := if keywords = [] then topic else joinStr ", " (keywords.take 3)
  let aud := match audience with
    | some a => if a = "" then "" else " for " ++ a
    | none => ""
  heading ++ ": " ++ style ++ " overview of " ++ topic ++ aud ++ ". " ++
    "This section explores key ideas, practical insights, and examples. " ++
    "Keywords to focus on: " ++ kw ++ "."

/-- The loop body list of `generate_content` (main.py lines 120-122): one
block string appended per outline heading, in order. -/
def contentBlocks (topic tone : String) (audience : Option String)
    (keywords : List String) : List String → List String
  | [] => []
  | h :: rest =>
    ("## " ++ h ++ "\n\n" ++ generate_paragraph h topic tone audience keywords ++ "\n")
      :: contentBlocks topic tone audience keywords rest

/-- Embedding of `generate_content` (main.py lines 119-123). -/
def generate_content (topic tone : String) (outline : List String)
    (audience : Option String) (keywords : List String) : String :=
  joinStr "\n" (contentBlocks topic tone audience keywords outline)

/-- Embedding of `GenerateRequest` (main.py lines 22-27), with the pydantic defaults. -/
structure GenerateRequest where
  topic : String
  tone : String := "Professional"
  keywords : Option (List String) := none
  length : Option String := some "medium"
  audience : Option String := none
deriving DecidableEq, Repr

/-- Embedding of `BlogPost` (schemas.py lines 42-55), with the pydantic default for `status`. -/
structure BlogPost where
  title : String
  topic : String
  tone : String
  keywords : List String
  outline : List String
  content : String
  length : Option String
  audience : Option String
  status : String := "generated"
deriving DecidableEq, Repr

/-- Embedding of `GenerateResponse` (main.py lines 30-40); `created_at` is a UTC timestamp. -/
structure GenerateResponse where
  id : String
  title : String
  outline : List String
  content : String
  topic : String
  tone : String
  keywords : List String
  length : Option String
  audience : Option String
  created_at : Nat
deriving DecidableEq, Repr

/-- Embedding of `(req.length or "medium").lower()` (main.py line 133): Python `or`
replaces both `None` and the falsy `""`. -/
def defaultedLower (o : Option String) : String :=
  pyLower (match o with
    | some s => if s = "" then "medium" else s
    | none => "medium")

/-- The length normalization of main.py lines 133-135: lowercase the
defaulted value, then fall back to `"medium"` unless it is in the enum. -/
def normalize_length (o : Option String) : String :=
  let length := defaultedLower o
  if length = "short" ∨ length = "medium" ∨ length = "long" then length
  else "medium"

/-- Embedding of `generate_blog` (main.py lines 127-166).  The store-assigned identifier
(`create_document`) and the clock (`datetime.utcnow()`) are external effects,
passed in as `new_id` and `now`; the result carries both the `BlogPost`
handed to the store and the HTTP response, or the raised `HTTPException`
as `(status_code, detail)`.  Python truthiness: `req.tone` falsy means empty,
and the keyword comprehension keeps only entries whose strip is non-empty. -/
def generate_blog (req : GenerateRequest) (new_id : String) (now : Nat) :
    Except (Nat × String) (BlogPost × GenerateResponse) :=
  let topic := pyStrip req.topic
  if topic = "" then
    .error (400, "Topic cannot be empty")
  else
    let tone := if req.tone = "" then "Professional" else pyStrip req.tone
    let length := normalize_length req.length
    let keywords := (req.keywords.getD []).filterMap
      (fun k => if pyStrip k = "" then none else some (pyStrip k))
    let outline := generate_outline topic length
    let title := generate_title topic tone
    let content := generate_content topic tone outline req.audience keywords
    let post : BlogPost :=
      { title := title, topic := topic, tone := tone, keywords := keywords,
        outline := outline, content := content, length := some length,
        audience := req.audience }
    .ok (post,
      { id := new_id, title := title, outline := outline, content := content,
        topic := topic, tone := tone, keywords := keywords,
        length := some length, audience := req.audience, created_at := now })

/-- A value stored under the `created_at` key of a document: either a datetime
(as a UTC timestamp, `datetime.min` being `0`) or a string.  Python raises
`TypeError` when ordering a datetime against a string. -/
inductive TimeVal where
  | dt (t : Nat)
  | sv (s : String)
deriving DecidableEq, Repr

/-- Python `<` on two `created_at` values: `none` models a `TypeError`. -/
def timeLt : TimeVal → TimeVal → Option Bool
  | .dt a, .dt b => some (decide (a < b))
  | .sv a, .sv b => some (decide (a < b))
  | _, _ => none

/-- Descending comparison used to model `sort(key=..., reverse=True)`
(a stable sort, so equal keys keep their retrieval order).  Its value on
mixed kinds is unobservable — the sort only runs when every pair of keys
is comparable — and is chosen so the comparison is total and transitive. -/
def timeDescLe : TimeVal → TimeVal → Bool
  | .dt a, .dt b => decide (b ≤ a)
  | .sv a, .sv b => decide (b ≤ a)
  | .dt _, .sv _ => true
  | .sv _, .dt _ => false

/-- Whether a `created_at` value is a datetime. -/
def TimeVal.isDt : TimeVal → Bool
  | .dt _ => true
  | .sv _ => false

/-- The timestamp of a datetime value (`0` on strings). -/
def TimeVal.dtVal : TimeVal → Nat
  | .dt t => t
  | .sv _ => 0

/-- A stored document as `list_posts` sees it: the raw store identifier under
`_id`, a possible `id` field, the `created_at` metadata, and the remaining
fields of the record. -/
structure Doc where
  internalId : Option Nat
  id : Option String
  created_at : Option TimeVal
  payload : List (String × String)
deriving DecidableEq, Repr

/-- Embedding of `d.get("created_at", datetime.min)` (main.py line 174). -/
def docKey (d : Doc) : TimeVal :=
  d.created_at.getD (.dt 0)

/-- Modelled from the spec: `get_documents` lives in `database.py`, which is
not among the sources; the DocumentStore gateway contract of the spec says `list`
"returns at most `limit` records matching `filter`" with the filter always
match-all, in store-defined retrieval order. -/
def get_documents (store : List Doc) (limit : Nat) : List Doc :=
  store.take limit

/-- The identifier cleanup of `list_posts` (main.py lines 178-182): when
`_id` is present it is removed and rendered as the string field `id`. -/
def cleanDoc (d : Doc) : Doc :=
  match d.internalId with
  | some oid => { d with internalId := none, id := some (toString oid) }
  | none => d

/-- Whether the Python sort `docs.sort(key=...)` completes: it does exactly when
every pair of sort keys is comparable (no mixed datetime/string keys). -/
def sortComparable (docs : List Doc) : Bool :=
  docs.all (fun a => docs.all (fun b => (timeLt (docKey a) (docKey b)).isSome))

/-- Embedding of `list_posts` (main.py lines 169-183): fetch, sort newest-first inside
`try/except pass` (a failing comparison leaves the fetched order), then
clean identifiers. -/
def list_posts (store : List Doc) (limit : Nat) : List Doc :=
  let docs := get_documents store limit
  let docs := if sortComparable docs
    then docs.mergeSort (fun a b => timeDescLe (docKey a) (docKey b))
    else docs
  docs.map cleanDoc

/-- The `length` stored on the persisted post of a successful generation. -/
def okPostLength (r : Except (Nat × String) (BlogPost × GenerateResponse)) :
    Option (Option String) :=
  match r with
  | .ok (p, _) => some p.length
  | .error _ => none

/-- Placeholder post used by the result projections below. -/
def dfltPost : BlogPost :=
  ⟨"", "", "", [], [], "", none, none, "generated"⟩

/-- Placeholder response used by the result projections below. -/
def dfltResp : GenerateResponse :=
  ⟨"", "", [], "", "", "", [], none, none, 0⟩

/-- The persisted post of a successful generation result. -/
def okPost (r : Except (Nat × String) (BlogPost × GenerateResponse)) : BlogPost :=
  (r.toOption.getD (dfltPost, dfltResp)).1

/-- The HTTP response of a successful generation result. -/
def okResp (r : Except (Nat × String) (BlogPost × GenerateResponse)) : GenerateResponse :=
  (r.toOption.getD (dfltPost, dfltResp)).2

/-- A small concrete store with datetime metadata, one record lacking it. -/
def sampleStore : List Doc :=
  [⟨some 1, none, some (.dt 2), [("title", "a")]⟩,
   ⟨some 2, none, none, [("title", "b")]⟩,
   ⟨some 3, none, some (.dt 7), [("title", "c")]⟩]

/-- A small concrete store whose `created_at` values mix kinds, so the
key comparison of the sort fails. -/
def mixedStore : List Doc :=
  [⟨some 1, none, some (.dt 5), []⟩,
   ⟨some 2, none, some (.sv "2024-01-01"), []⟩]

/-! ## Helper lemmas -/

theorem contentBlocks_eq_map (topic tone : String) (audience : Option String)
    (keywords : List String) (outline : List String) :
    contentBlocks topic tone audience keywords outline =
      outline.map (fun h =>
        "## " ++ h ++ "\n\n" ++ generate_paragraph h topic tone audience keywords ++ "\n") := by
  induction outline with
  | nil => rfl
  | cons h t ih => simp [contentBlocks, ih]

theorem generate_outline_ne_nil (topic length : String) :
    generate_outline topic length ≠ [] := by
  unfold generate_outline
  split
  · simp [outlineBase]
  · split <;> simp [outlineBase]

theorem pyStrip_ne_empty_exists_nonwhite (s : String) (h : pyStrip s ≠ "") :
    ∃ c ∈ (pyStrip s).data, c.isWhitespace = false := by
  have hne : (s.data.dropWhile Char.isWhitespace).reverse.dropWhile Char.isWhitespace ≠ [] := by
    intro hnil
    apply h
    show String.mk _ = ""
    rw [hnil]
    rfl
  exact ⟨_, List.mem_reverse.mpr (List.head_mem hne),
    List.head_dropWhile_not Char.isWhitespace _ hne⟩

theorem normalize_length_mem (o : Option String) :
    normalize_length o ∈ (["short", "medium", "long"] : List String) := by
  by_cases hc : defaultedLower o = "short" ∨ defaultedLower o = "medium" ∨
      defaultedLower o = "long"
  · rcases hc with h | h | h <;> simp [normalize_length, h]
  · simp [normalize_length, hc]

theorem normalize_length_fallback (o : Option String)
    (h : defaultedLower o ∉ (["short", "medium", "long"] : List String)) :
    normalize_length o = "medium" := by
  simp only [List.mem_cons, List.not_mem_nil, or_false, not_or] at h
  simp [normalize_length, h.1, h.2.1, h.2.2]

theorem normalize_length_keeps (o : Option String)
    (h : defaultedLower o ∈ (["short", "medium", "long"] : List String)) :
    normalize_length o = defaultedLower o := by
  simp only [List.mem_cons, List.not_mem_nil, or_false] at h
  simp [normalize_length, h]

theorem cleanDoc_created_at (d : Doc) : (cleanDoc d).created_at = d.created_at := by
  unfold cleanDoc
  split <;> rfl

theorem docKey_cleanDoc (d : Doc) : docKey (cleanDoc d) = docKey d := by
  simp [docKey, cleanDoc_created_at]

theorem timeDescLe_total (a b : TimeVal) : (timeDescLe a b || timeDescLe b a) = true := by
  cases a with
  | dt x =>
    cases b with
    | dt y => simp [timeDescLe]; omega
    | sv y => simp [timeDescLe]
  | sv x =>
    cases b with
    | dt y => simp [timeDescLe]
    | sv y =>
      simp only [timeDescLe, Bool.or_eq_true, decide_eq_true_eq]
      exact le_total y x

theorem timeDescLe_trans : ∀ a b c : TimeVal, timeDescLe a b = true →
    timeDescLe b c = true → timeDescLe a c = true
  | .dt _, .dt _, .dt _, hab, hbc => by
    simp only [timeDescLe, decide_eq_true_eq] at hab hbc ⊢
    omega
  | .sv _, .sv _, .sv _, hab, hbc => by
    simp only [timeDescLe, decide_eq_true_eq] at hab hbc ⊢
    exact le_trans hbc hab
  | .dt _, .dt _, .sv _, _, _ => rfl
  | .dt _, .sv _, .dt _, _, hbc => by simp [timeDescLe] at hbc
  | .dt _, .sv _, .sv _, _, _ => rfl
  | .sv _, .dt _, .dt _, hab, _ => by simp [timeDescLe] at hab
  | .sv _, .dt _, .sv _, hab, _ => by simp [timeDescLe] at hab
  | .sv _, .sv _, .dt _, _, hbc => by simp [timeDescLe] at hbc

theorem joinStr_map_append (sep t : String) :
    ∀ l : List String, l ≠ [] →
      joinStr sep (l.map (fun b => b ++ t)) = joinStr (t ++ sep) l ++ t
  | [], h => absurd rfl h
  | [b], _ => rfl
  | b :: c :: cs, _ => by
    have ih := joinStr_map_append sep t (c :: cs) (by simp)
    simp only [List.map_cons] at ih ⊢
    show (b ++ t) ++ sep ++ joinStr sep ((c ++ t) :: cs.map (fun b => b ++ t)) =
      (b ++ (t ++ sep) ++ joinStr (t ++ sep) (c :: cs)) ++ t
    rw [ih]
    simp [String.append_assoc]

/-! ## Claims -/

/-- C1: for every non-empty topic, `generate_outline` returns the first 4
base headings for `"short"` (4 entries), the 6 base headings plus the case
study and resources headings for `"long"` (8 entries), and the 6-entry base
for any other length; every outline starts with `"Introduction"` and ends
with the length-appropriate final heading. -/
theorem c1_outline_lengths_and_endpoints (topic : String) (_h : topic ≠ "") :
    generate_outline topic "short" = (outlineBase topic).take 4 ∧
    (generate_outline topic "short").length = 4 ∧
    generate_outline topic "long" =
      outlineBase topic ++
        ["Case Study: " ++ topic ++ " in Action", "Resources & Next Steps"] ∧
    (generate_outline topic "long").length = 8 ∧
    (∀ len, len ≠ "short" → len ≠ "long" →
      generate_outline topic len = outlineBase topic ∧
      (generate_outline topic len).length = 6) ∧
    (∀ len, (generate_outline topic len).head? = some "Introduction") ∧
    (generate_outline topic "short").getLast? = some ("Practical Tips for " ++ topic) ∧
    (∀ len, len ≠ "short" → len ≠ "long" →
      (generate_outline topic len).getLast? = some "Conclusion") ∧
    (generate_outline topic "long").getLast? = some "Resources & Next Steps" := by
  refine ⟨by simp [generate_outline], by simp [generate_outline, outlineBase],
    by simp [generate_outline], by simp [generate_outline, outlineBase], ?_, ?_, ?_, ?_, ?_⟩
  · intro len h1 h2
    simp [generate_outline, outlineBase, h1, h2]
  · intro len
    by_cases h1 : len = "short"
    · simp [generate_outline, outlineBase, h1]
    · by_cases h2 : len = "long"
      · simp [generate_outline, outlineBase, h1, h2]
      · simp [generate_outline, outlineBase, h1, h2]
  · simp [generate_outline, outlineBase]
  · intro len h1 h2
    simp [generate_outline, outlineBase, h1, h2]
  · simp [generate_outline, outlineBase]

/-- Witness for C1 at topic `"AI"`, length `"medium"`. -/
theorem c1_witness :
    ("AI" : String) ≠ "" ∧
    generate_outline "AI" "medium" = outlineBase "AI" ∧
    (generate_outline "AI" "medium").length = 6 :=
  ⟨by decide,
   (c1_outline_lengths_and_endpoints "AI" (by decide)).2.2.2.2.1 "medium"
     (by decide) (by decide)⟩

/-- C2: `generate_content` emits exactly one block per outline heading, in
outline order — block `i` is the Markdown heading line `"## "` + heading
followed by the paragraph for that heading — and the blocks are joined with a
blank line between them; the block count equals the outline length. -/
theorem c2_content_blocks (topic tone : String) (outline : List String)
    (audience : Option String) (keywords : List String) :
    (contentBlocks topic tone audience keywords outline).length = outline.length ∧
    generate_content topic tone outline audience keywords =
      joinStr "\n" (contentBlocks topic tone audience keywords outline) ∧
    (∀ i : Nat, (contentBlocks topic tone audience keywords outline)[i]? =
      (outline[i]?).map (fun h =>
        "## " ++ h ++ "\n\n" ++ generate_paragraph h topic tone audience keywords ++ "\n")) ∧
    (outline ≠ [] → generate_content topic tone outline audience keywords =
      joinStr "\n\n" (outline.map (fun h =>
        "## " ++ h ++ "\n\n" ++ generate_paragraph h topic tone audience keywords)) ++ "\n") := by
  refine ⟨by simp [contentBlocks_eq_map], rfl, ?_, ?_⟩
  · intro i
    simp [contentBlocks_eq_map, List.getElem?_map]
  · intro hne
    have hmapne : outline.map (fun h =>
        "## " ++ h ++ "\n\n" ++ generate_paragraph h topic tone audience keywords) ≠ [] := by
      simpa using hne
    have hsep : ("\n" ++ "\n" : String) = "\n\n" := rfl
    calc generate_content topic tone outline audience keywords
        = joinStr "\n" ((outline.map (fun h =>
            "## " ++ h ++ "\n\n" ++ generate_paragraph h topic tone audience keywords)).map
              (fun b => b ++ "\n")) := by
          show joinStr "\n" (contentBlocks topic tone audience keywords outline) = _
          rw [contentBlocks_eq_map, List.map_map]
          rfl
      _ = joinStr ("\n" ++ "\n") (outline.map (fun h =>
            "## " ++ h ++ "\n\n" ++ generate_paragraph h topic tone audience keywords)) ++ "\n" :=
          joinStr_map_append "\n" "\n" _ hmapne
      _ = joinStr "\n\n" (outline.map (fun h =>
            "## " ++ h ++ "\n\n" ++ generate_paragraph h topic tone audience keywords)) ++ "\n" := by
          rw [hsep]

/-- Witness for C2 at a one-heading outline. -/
theorem c2_witness :
    (["Introduction"] : List String) ≠ [] ∧
    generate_content "AI" "Friendly" ["Introduction"] none [] =
      joinStr "\n\n" ((["Introduction"] : List String).map (fun h =>
        "## " ++ h ++ "\n\n" ++ generate_paragraph h "AI" "Friendly" none [])) ++ "\n" :=
  ⟨by decide, (c2_content_blocks "AI" "Friendly" ["Introduction"] none []).2.2.2 (by decide)⟩

/-- C3: `generate_title` is the tone-specific prefix followed by a space and
the topic, with every unknown tone falling back to the Professional prefix. -/
theorem c3_title_prefixes (topic tone : String) :
    generate_title topic "Professional" = "A Practical Guide to" ++ " " ++ topic ∧
    generate_title topic "Friendly" = "Getting Started with" ++ " " ++ topic ∧
    generate_title topic "Technical" = "In-Depth Look at" ++ " " ++ topic ∧
    generate_title topic "Persuasive" = "Why You Should Care About" ++ " " ++ topic ∧
    (tone ∉ (["Professional", "Friendly", "Technical", "Persuasive"] : List String) →
      generate_title topic tone = "A Practical Guide to" ++ " " ++ topic) := by
  refine ⟨by simp [generate_title], by simp [generate_title], by simp [generate_title],
    by simp [generate_title], ?_⟩
  intro h
  simp only [List.mem_cons, List.not_mem_nil, or_false, not_or] at h
  obtain ⟨h1, h2, h3, h4⟩ := h
  simp [generate_title, h1, h2, h3, h4]

/-- Witness for C3 at the unknown tone `"Sarcastic"`. -/
theorem c3_witness :
    ("Sarcastic" : String) ∉
      (["Professional", "Friendly", "Technical", "Persuasive"] : List String) ∧
    generate_title "AI" "Sarcastic" = "A Practical Guide to" ++ " " ++ "AI" :=
  ⟨by decide, (c3_title_prefixes "AI" "Sarcastic").2.2.2.2 (by decide)⟩

/-- C4: `POST /api/generate` raises HTTP 400 with detail
`"Topic cannot be empty"` exactly when the request topic is empty after
trimming, and in that case no `BlogPost` is produced for the store. -/
theorem c4_empty_topic_400 (req : GenerateRequest) (new_id : String) (now : Nat) :
    (pyStrip req.topic = "" →
      generate_blog req new_id now = .error (400, "Topic cannot be empty")) ∧
    (∀ e, generate_blog req new_id now = .error e →
      pyStrip req.topic = "" ∧ e = (400, "Topic cannot be empty")) ∧
    (pyStrip req.topic = "" →
      ∀ p r, generate_blog req new_id now ≠ .ok (p, r)) := by
  refine ⟨?_, ?_, ?_⟩
  · intro hp
    simp [generate_blog, hp]
  · intro e h
    by_cases hp : pyStrip req.topic = ""
    · simp [generate_blog, hp] at h
      exact ⟨hp, h.symm⟩
    · simp [generate_blog, hp] at h
  · intro hp p r
    simp [generate_blog, hp]

/-- Witness for C4 at the whitespace-only topic `"   "`. -/
theorem c4_witness :
    pyStrip "   " = "" ∧
    generate_blog ⟨"   ", "Professional", none, some "medium", none⟩ "x" 0 =
      .error (400, "Topic cannot be empty") :=
  ⟨by decide,
   (c4_empty_topic_400 ⟨"   ", "Professional", none, some "medium", none⟩ "x" 0).1 (by decide)⟩

/-- C5 as stated is false: the enum membership check runs on the lowercased
value, so the request length `"SHORT"` — not a member of
`{short, medium, long}` — is coerced to `"short"`, not to `"medium"`. -/
theorem c5_counterexample :
    ("SHORT" : String) ∉ (["short", "medium", "long"] : List String) ∧
    okPostLength (generate_blog ⟨"AI", "Professional", none, some "SHORT", none⟩ "x" 0) =
      some (some "short") ∧
    (some (some "short") : Option (Option String)) ≠ some (some "medium") :=
  ⟨by decide, by decide, by decide⟩

/-- C5 amended: a length value is never rejected; its defaulted, lowercased
form is used when it lies in `{short, medium, long}` and is otherwise
coerced to `"medium"`, and the resulting value drives the outline and is
persisted (and echoed) as the `length` of the post. -/
theorem c5_length_normalization (req : GenerateRequest) (new_id : String) (now : Nat)
    (h : pyStrip req.topic ≠ "") :
    ∃ post resp, generate_blog req new_id now = .ok (post, resp) ∧
      post.length = some (normalize_length req.length) ∧
      resp.length = some (normalize_length req.length) ∧
      post.outline = generate_outline (pyStrip req.topic) (normalize_length req.length) ∧
      normalize_length req.length ∈ (["short", "medium", "long"] : List String) ∧
      (defaultedLower req.length ∉ (["short", "medium", "long"] : List String) →
        normalize_length req.length = "medium") ∧
      (defaultedLower req.length ∈ (["short", "medium", "long"] : List String) →
        normalize_length req.length = defaultedLower req.length) := by
  simp only [generate_blog]
  rw [if_neg h]
  exact ⟨_, _, rfl, rfl, rfl, rfl, normalize_length_mem _,
    normalize_length_fallback _, normalize_length_keeps _⟩

/-- Witness for C5 (amended) at the invalid length `"weird"`. -/
theorem c5_witness :
    pyStrip "AI" ≠ "" ∧
    (∃ post resp,
      generate_blog ⟨"AI", "Professional", none, some "weird", none⟩ "x" 0 = .ok (post, resp) ∧
      post.length = some (normalize_length (some "weird")) ∧
      resp.length = some (normalize_length (some "weird")) ∧
      post.outline = generate_outline (pyStrip "AI") (normalize_length (some "weird")) ∧
      normalize_length (some "weird") ∈ (["short", "medium", "long"] : List String) ∧
      (defaultedLower (some "weird") ∉ (["short", "medium", "long"] : List String) →
        normalize_length (some "weird") = "medium") ∧
      (defaultedLower (some "weird") ∈ (["short", "medium", "long"] : List String) →
        normalize_length (some "weird") = defaultedLower (some "weird"))) :=
  ⟨by decide,
   c5_length_normalization ⟨"AI", "Professional", none, some "weird", none⟩ "x" 0 (by decide)⟩

/-- C6: every `BlogPost` persisted by a successful generation has a
non-empty outline, status `"generated"`, and keywords that are trimmed
request entries, none of them blank or whitespace-only. -/
theorem c6_blogpost_invariants (req : GenerateRequest) (new_id : String) (now : Nat)
    (post : BlogPost) (resp : GenerateResponse)
    (h : generate_blog req new_id now = .ok (post, resp)) :
    post.outline ≠ [] ∧
    post.status = "generated" ∧
    ∀ k ∈ post.keywords, k ≠ "" ∧ (∃ c ∈ k.data, c.isWhitespace = false) ∧
      ∃ k0 ∈ req.keywords.getD [], k = pyStrip k0 := by
  simp only [generate_blog] at h
  by_cases hp : pyStrip req.topic = ""
  · rw [if_pos hp] at h
    exact absurd h (by simp)
  · rw [if_neg hp] at h
    simp only [Except.ok.injEq, Prod.mk.injEq] at h
    obtain ⟨hpost, hresp⟩ := h
    subst hpost
    refine ⟨generate_outline_ne_nil _ _, rfl, ?_⟩
    intro k hk
    simp only [List.mem_filterMap] at hk
    obtain ⟨k0, hk0, heq⟩ := hk
    by_cases hz : pyStrip k0 = ""
    · rw [if_pos hz] at heq
      exact absurd heq (by simp)
    · rw [if_neg hz] at heq
      have hkeq : pyStrip k0 = k := by
        simpa using heq
      subst hkeq
      exact ⟨hz, pyStrip_ne_empty_exists_nonwhite k0 hz, k0, hk0, rfl⟩

/-- Witness for C6 at a request with messy keywords. -/
theorem c6_witness :
    generate_blog ⟨" AI ", "Friendly", some ["  seo ", "   ", "tips"], some "short", none⟩ "x" 0 =
      .ok (okPost (generate_blog ⟨" AI ", "Friendly", some ["  seo ", "   ", "tips"], some "short", none⟩ "x" 0),
           okResp (generate_blog ⟨" AI ", "Friendly", some ["  seo ", "   ", "tips"], some "short", none⟩ "x" 0)) ∧
    ((okPost (generate_blog ⟨" AI ", "Friendly", some ["  seo ", "   ", "tips"], some "short", none⟩ "x" 0)).outline ≠ [] ∧
     (okPost (generate_blog ⟨" AI ", "Friendly", some ["  seo ", "   ", "tips"], some "short", none⟩ "x" 0)).status = "generated" ∧
     ∀ k ∈ (okPost (generate_blog ⟨" AI ", "Friendly", some ["  seo ", "   ", "tips"], some "short", none⟩ "x" 0)).keywords,
       k ≠ "" ∧ (∃ c ∈ k.data, c.isWhitespace = false) ∧
       ∃ k0 ∈ (some ["  seo ", "   ", "tips"] : Option (List String)).getD [], k = pyStrip k0) :=
  ⟨rfl,
   c6_blogpost_invariants ⟨" AI ", "Friendly", some ["  seo ", "   ", "tips"], some "short", none⟩ "x" 0
     _ _ rfl⟩

/-- C10: on success, the persisted `BlogPost` and the HTTP response agree on
title, outline, content, topic, tone, keywords, length and audience, the
response adding only the store-assigned id and the creation timestamp. -/
theorem c10_store_response_agreement (req : GenerateRequest) (new_id : String) (now : Nat)
    (post : BlogPost) (resp : GenerateResponse)
    (h : generate_blog req new_id now = .ok (post, resp)) :
    resp.title = post.title ∧ resp.outline = post.outline ∧ resp.content = post.content ∧
    resp.topic = post.topic ∧ resp.tone = post.tone ∧ resp.keywords = post.keywords ∧
    resp.length = post.length ∧ resp.audience = post.audience ∧
    resp.id = new_id ∧ resp.created_at = now := by
  simp only [generate_blog] at h
  by_cases hp : pyStrip req.topic = ""
  · rw [if_pos hp] at h
    exact absurd h (by simp)
  · rw [if_neg hp] at h
    simp only [Except.ok.injEq, Prod.mk.injEq] at h
    obtain ⟨hpost, hresp⟩ := h
    subst hpost
    subst hresp
    exact ⟨rfl, rfl, rfl, rfl, rfl, rfl, rfl, rfl, rfl, rfl⟩

/-- Witness for C10 at a concrete request. -/
theorem c10_witness :
    generate_blog ⟨"Remote Work", "Technical", some ["a"], some "long", some "devs"⟩ "id7" 42 =
      .ok (okPost (generate_blog ⟨"Remote Work", "Technical", some ["a"], some "long", some "devs"⟩ "id7" 42),
           okResp (generate_blog ⟨"Remote Work", "Technical", some ["a"], some "long", some "devs"⟩ "id7" 42)) ∧
    ((okResp (generate_blog ⟨"Remote Work", "Technical", some ["a"], some "long", some "devs"⟩ "id7" 42)).title =
       (okPost (generate_blog ⟨"Remote Work", "Technical", some ["a"], some "long", some "devs"⟩ "id7" 42)).title ∧
     (okResp (generate_blog ⟨"Remote Work", "Technical", some ["a"], some "long", some "devs"⟩ "id7" 42)).outline =
       (okPost (generate_blog ⟨"Remote Work", "Technical", some ["a"], some "long", some "devs"⟩ "id7" 42)).outline ∧
     (okResp (generate_blog ⟨"Remote Work", "Technical", some ["a"], some "long", some "devs"⟩ "id7" 42)).content =
       (okPost (generate_blog ⟨"Remote Work", "Technical", some ["a"], some "long", some "devs"⟩ "id7" 42)).content ∧
     (okResp (generate_blog ⟨"Remote Work", "Technical", some ["a"], some "long", some "devs"⟩ "id7" 42)).topic =
       (okPost (generate_blog ⟨"Remote Work", "Technical", some ["a"], some "long", some "devs"⟩ "id7" 42)).topic ∧
     (okResp (generate_blog ⟨"Remote Work", "Technical", some ["a"], some "long", some "devs"⟩ "id7" 42)).tone =
       (okPost (generate_blog ⟨"Remote Work", "Technical", some ["a"], some "long", some "devs"⟩ "id7" 42)).tone ∧
     (okResp (generate_blog ⟨"Remote Work", "Technical", some ["a"], some "long", some "devs"⟩ "id7" 42)).keywords =
       (okPost (generate_blog ⟨"Remote Work", "Technical", some ["a"], some "long", some "devs"⟩ "id7" 42)).keywords ∧
     (okResp (generate_blog ⟨"Remote Work", "Technical", some ["a"], some "long", some "devs"⟩ "id7" 42)).length =
       (okPost (generate_blog ⟨"Remote Work", "Technical", some ["a"], some "long", some "devs"⟩ "id7" 42)).length ∧
     (okResp (generate_blog ⟨"Remote Work", "Technical", some ["a"], some "long", some "devs"⟩ "id7" 42)).audience =
       (okPost (generate_blog ⟨"Remote Work", "Technical", some ["a"], some "long", some "devs"⟩ "id7" 42)).audience ∧
     (okResp (generate_blog ⟨"Remote Work", "Technical", some ["a"], some "long", some "devs"⟩ "id7" 42)).id = "id7" ∧
     (okResp (generate_blog ⟨"Remote Work", "Technical", some ["a"], some "long", some "devs"⟩ "id7" 42)).created_at = 42) :=
  ⟨rfl,
   c10_store_response_agreement ⟨"Remote Work", "Technical", some ["a"], some "long", some "devs"⟩ "id7" 42
     _ _ rfl⟩

/-- C7: `GET /api/posts?limit=N` returns at most `N` records, newest first:
the returned list is pairwise descending in the sort key, records with
distinct timestamps appear in descending `created_at` order, and (when all
present timestamps exceed `datetime.min`) a record lacking `created_at`
is followed only by records that also lack it, so it sorts as oldest. -/
theorem c7_list_posts_ordering (store : List Doc) (limit : Nat)
    (hdt : ∀ d ∈ get_documents store limit, (docKey d).isDt = true) :
    (list_posts store limit).length ≤ limit ∧
    List.Pairwise (fun a b => timeDescLe (docKey a) (docKey b) = true)
      (list_posts store limit) ∧
    List.Pairwise (fun a b => ∀ ta tb, a.created_at = some (TimeVal.dt ta) →
      b.created_at = some (TimeVal.dt tb) → tb ≤ ta) (list_posts store limit) ∧
    ((∀ d ∈ get_documents store limit, d.created_at = none ∨ 0 < (docKey d).dtVal) →
      List.Pairwise (fun a b => a.created_at = none → b.created_at = none)
        (list_posts store limit)) := by
  have hcomp : sortComparable (get_documents store limit) = true := by
    simp only [sortComparable, List.all_eq_true]
    intro a ha b hb
    have h1 := hdt a ha
    have h2 := hdt b hb
    cases hka : docKey a with
    | dt ta =>
      cases hkb : docKey b with
      | dt tb => simp [timeLt]
      | sv s => rw [hkb] at h2; simp [TimeVal.isDt] at h2
    | sv s => rw [hka] at h1; simp [TimeVal.isDt] at h1
  have hout : list_posts store limit =
      ((get_documents store limit).mergeSort
        (fun a b => timeDescLe (docKey a) (docKey b))).map cleanDoc := by
    simp only [list_posts]
    rw [if_pos hcomp]
  have hsorted : List.Pairwise
      (fun a b : Doc => timeDescLe (docKey a) (docKey b) = true)
      ((get_documents store limit).mergeSort
        (fun a b => timeDescLe (docKey a) (docKey b))) :=
    @List.sorted_mergeSort Doc (fun a b => timeDescLe (docKey a) (docKey b))
      (fun a b c hab hbc => timeDescLe_trans (docKey a) (docKey b) (docKey c) hab hbc)
      (fun a b => timeDescLe_total (docKey a) (docKey b))
      (get_documents store limit)
  have hpair : List.Pairwise (fun a b => timeDescLe (docKey a) (docKey b) = true)
      (list_posts store limit) := by
    rw [hout]
    refine List.pairwise_map.mpr (hsorted.imp ?_)
    intro a b hab
    rwa [docKey_cleanDoc, docKey_cleanDoc]
  refine ⟨?_, hpair, ?_, ?_⟩
  · rw [hout]
    simp only [List.length_map, List.length_mergeSort, get_documents, List.length_take]
    exact min_le_left _ _
  · refine hpair.imp ?_
    intro a b hab ta tb hta htb
    have hka : docKey a = TimeVal.dt ta := by simp [docKey, hta]
    have hkb : docKey b = TimeVal.dt tb := by simp [docKey, htb]
    rw [hka, hkb] at hab
    simpa [timeDescLe] using hab
  · intro hpos
    refine hpair.imp_of_mem ?_
    intro a b hma hmb hab hanone
    rw [hout] at hmb
    rcases List.mem_map.mp hmb with ⟨b0, hb0mem, rfl⟩
    have hb0 : b0 ∈ get_documents store limit := List.mem_mergeSort.mp hb0mem
    rw [cleanDoc_created_at]
    have hdtb := hdt b0 hb0
    have hposb := hpos b0 hb0
    have hka : docKey a = TimeVal.dt 0 := by simp [docKey, hanone]
    cases hcb : b0.created_at with
    | none => rfl
    | some v =>
      cases v with
      | dt tb =>
        have hkb : docKey b0 = TimeVal.dt tb := by simp [docKey, hcb]
        rw [docKey_cleanDoc, hka, hkb] at hab
        simp only [timeDescLe, decide_eq_true_eq] at hab
        rcases hposb with hnone | hposv
        · rw [hcb] at hnone; cases hnone
        · rw [hkb] at hposv
          simp only [TimeVal.dtVal] at hposv
          exfalso
          omega
      | sv s =>
        have hkb : docKey b0 = TimeVal.sv s := by simp [docKey, hcb]
        rw [hkb] at hdtb
        simp [TimeVal.isDt] at hdtb

/-- Witness for C7 at a three-record store, one record lacking `created_at`. -/
theorem c7_witness :
    (∀ d ∈ get_documents sampleStore 10, (docKey d).isDt = true) ∧
    ((list_posts sampleStore 10).length ≤ 10 ∧
     List.Pairwise (fun a b => timeDescLe (docKey a) (docKey b) = true)
       (list_posts sampleStore 10) ∧
     List.Pairwise (fun a b => ∀ ta tb, a.created_at = some (TimeVal.dt ta) →
       b.created_at = some (TimeVal.dt tb) → tb ≤ ta) (list_posts sampleStore 10) ∧
     ((∀ d ∈ get_documents sampleStore 10, d.created_at = none ∨ 0 < (docKey d).dtVal) →
       List.Pairwise (fun a b => a.created_at = none → b.created_at = none)
         (list_posts sampleStore 10))) :=
  ⟨by decide, c7_list_posts_ordering sampleStore 10 (by decide)⟩

/-- C8: every record returned by `GET /api/posts` carries the internal store
identifier as the string field `id` and no longer carries the raw `_id`. -/
theorem c8_id_rendering (store : List Doc) (limit : Nat)
    (h : ∀ d ∈ store, d.internalId.isSome = true) :
    ∀ d ∈ list_posts store limit, d.internalId = none ∧
      ∃ oid : Nat, d.id = some (toString oid) := by
  intro d hd
  simp only [list_posts] at hd
  rcases List.mem_map.mp hd with ⟨d0, hd0, rfl⟩
  have hd0' : d0 ∈ get_documents store limit := by
    by_cases hc : sortComparable (get_documents store limit) = true
    · rw [if_pos hc] at hd0
      exact List.mem_mergeSort.mp hd0
    · rw [if_neg hc] at hd0
      exact hd0
  have hstore : d0 ∈ store := by
    have htake : d0 ∈ store.take limit := hd0'
    exact List.mem_of_mem_take htake
  have hsome := h d0 hstore
  cases hoid : d0.internalId with
  | none => rw [hoid] at hsome; simp at hsome
  | some oid =>
    constructor
    · simp [cleanDoc, hoid]
    · exact ⟨oid, by simp [cleanDoc, hoid]⟩

/-- Witness for C8 at the three-record store. -/
theorem c8_witness :
    (∀ d ∈ sampleStore, d.internalId.isSome = true) ∧
    ∀ d ∈ list_posts sampleStore 10, d.internalId = none ∧
      ∃ oid : Nat, d.id = some (toString oid) :=
  ⟨by decide, c8_id_rendering sampleStore 10 (by decide)⟩

/-- C9: when the key comparison of the sort fails for some pair of fetched
records, `GET /api/posts` still completes and returns the records in
store-native retrieval order, with identifier cleanup applied. -/
theorem c9_sort_failure_graceful (store : List Doc) (limit : Nat)
    (h : ∃ a ∈ get_documents store limit, ∃ b ∈ get_documents store limit,
      timeLt (docKey a) (docKey b) = none) :
    list_posts store limit = (get_documents store limit).map cleanDoc := by
  have hc : sortComparable (get_documents store limit) = false := by
    rcases h with ⟨a, ha, b, hb, hab⟩
    rw [Bool.eq_false_iff]
    intro htrue
    simp only [sortComparable, List.all_eq_true] at htrue
    have hsome := htrue a ha b hb
    rw [hab] at hsome
    simp at hsome
  simp only [list_posts]
  rw [if_neg (by simp [hc])]

/-- Witness for C9 at a store mixing datetime and string `created_at`. -/
theorem c9_witness :
    (∃ a ∈ get_documents mixedStore 10, ∃ b ∈ get_documents mixedStore 10,
      timeLt (docKey a) (docKey b) = none) ∧
    list_posts mixedStore 10 = (get_documents mixedStore 10).map cleanDoc :=
  ⟨by decide, c9_sort_failure_graceful mixedStore 10 (by decide)⟩
